import Mathlib

/-!
Verification of the blogicum blog application (blog/models.py, blog/views.py,
blog/urls.py) against its natural-language specification.

The embedding is a shallow one: database rows become Lean structures, a
database state is a `DB` record of row lists, and each Django view becomes a
pure function from the database state, the requesting viewer and the URL
arguments to a response (and, for mutating views, a new database state).
Wall-clock time (`timezone.now()`) is passed explicitly as an integer
timestamp `now`.  Users are identified by their numeric id; the anonymous
requester is `Option.none`.

Fields that no claim touches (images, created_at timestamps, the Location
table, form widgets) are omitted; every field and filter a claim mentions is
translated directly from the source.
-/

/-- A row of the `Category` table (blog/models.py, `Category`). -/
structure Category where
  id : Nat
  title : String
  description : String
  slug : String
  is_published : Bool
deriving Repr, DecidableEq

/-- A row of the `Post` table (blog/models.py, `Post`).  `author` is the id
of the owning user (non-nullable FK); `category` and `location` are nullable
FKs (`on_delete=SET_NULL`), modelled as `Option Nat`.  `pub_date` is the
publication timestamp. -/
structure Post where
  id : Nat
  title : String
  text : String
  pub_date : Int
  author : Nat
  location : Option Nat
  category : Option Nat
  is_published : Bool
deriving Repr, DecidableEq

/-- A row of the `Comment` table (blog/models.py, `Comment`).  `pub_date` is
the `auto_now_add` creation timestamp; `post` is the non-nullable FK to the
commented post. -/
structure Comment where
  id : Nat
  text : String
  author : Nat
  pub_date : Int
  post : Nat
deriving Repr, DecidableEq

/-- An element of a listing queryset: a post together with the
`comment_count` annotation added by `.annotate(comment_count=Count('comments'))`. -/
structure AnnotatedPost where
  post : Post
  comment_count : Nat
deriving Repr, DecidableEq

/-- The persistent state: the category, post and comment tables, plus the
next comment primary key handed out by the storage engine. -/
structure DB where
  categories : List Category
  posts : List Post
  comments : List Comment
  nextCommentId : Nat
deriving Repr, DecidableEq

/-- Look up a category row by primary key (the SQL join on `category_id`). -/
def findCategory (db : DB) (cid : Nat) : Option Category :=
  db.categories.find? (fun c => c.id == cid)

/-- The visibility predicate of the feeds: the filter
`is_published=True, category__is_published=True, pub_date__lte=timezone.now()`
from `PublishedPostMixin.get_published_posts` (blog/views.py).  A post whose
`category` FK is NULL has no joined category row, so the
`category__is_published=True` condition fails and the post is excluded. -/
def visible (db : DB) (now : Int) (p : Post) : Bool :=
  p.is_published &&
  (match p.category with
   | some cid =>
     match findCategory db cid with
     | some c => c.is_published
     | none => false
   | none => false) &&
  decide (p.pub_date ≤ now)

/-- The condition `Q(author=self.request.user.id)` of
`PublishedPostMixin.get_users_posts`: for an anonymous requester
`request.user.id` is `None` and the non-nullable `author` FK matches no row. -/
def authorMatches (p : Post) (viewer : Option Nat) : Bool :=
  match viewer with
  | some u => p.author == u
  | none => false

/-- The `Count('comments')` annotation: the number of comment rows whose
`post` FK references the given post id. -/
def commentCount (db : DB) (pid : Nat) : Nat :=
  (db.comments.filter (fun c => c.post == pid)).length

/-- Attach the `comment_count` annotation to a post row. -/
def annotate (db : DB) (p : Post) : AnnotatedPost :=
  { post := p, comment_count := commentCount db p.id }

/-- The ordering relation of `.order_by('-pub_date')`: publication timestamp
descending. -/
def annDesc (a b : AnnotatedPost) : Prop :=
  b.post.pub_date ≤ a.post.pub_date

instance : DecidableRel annDesc :=
  fun a b => Int.decLe b.post.pub_date a.post.pub_date

instance : IsTotal AnnotatedPost annDesc :=
  ⟨fun a b => Int.le_total b.post.pub_date a.post.pub_date⟩

instance : IsTrans AnnotatedPost annDesc :=
  ⟨fun _ _ _ h1 h2 => le_trans h2 h1⟩

/-- The ordering relation of `Comment.Meta.ordering = ('pub_date',)`:
creation timestamp ascending. -/
def commentAsc (a b : Comment) : Prop :=
  a.pub_date ≤ b.pub_date

instance : DecidableRel commentAsc :=
  fun a b => Int.decLe a.pub_date b.pub_date

instance : IsTotal Comment commentAsc :=
  ⟨fun a b => Int.le_total a.pub_date b.pub_date⟩

instance : IsTrans Comment commentAsc :=
  ⟨fun _ _ _ h1 h2 => le_trans h1 h2⟩

/-- `PublishedPostMixin.get_published_posts` (blog/views.py lines 22-33):
filter by the visibility predicate, annotate each row with its comment count
and order by `-pub_date`. -/
def get_published_posts (db : DB) (now : Int) (posts : List Post) :
    List AnnotatedPost :=
  ((posts.filter (fun p => visible db now p)).map (annotate db)).insertionSort
    annDesc

/-- `PublishedPostMixin.get_users_posts` (blog/views.py lines 35-47): the
author-widened filter `(is_published & category published & pub_date elapsed)
OR author == request.user.id`, with the same annotation and ordering. -/
def get_users_posts (db : DB) (now : Int) (viewer : Option Nat)
    (posts : List Post) : List AnnotatedPost :=
  ((posts.filter
      (fun p => visible db now p || authorMatches p viewer)).map
    (annotate db)).insertionSort annDesc

/-- `Index.get_queryset` (blog/views.py lines 72-73): the global feed is
`get_published_posts()` over all posts. -/
def Index.get_queryset (db : DB) (now : Int) : List AnnotatedPost :=
  get_published_posts db now db.posts

/-- The posts shown on a profile page, `Profile.get_context_data`
(blog/views.py line 193): `self.get_users_posts().filter(author=self.object)`.
`owner` is the id of the profile's user. -/
def Profile.page_posts (db : DB) (now : Int) (viewer : Option Nat)
    (owner : Nat) : List AnnotatedPost :=
  (get_users_posts db now viewer db.posts).filter
    (fun a => a.post.author == owner)

/-- The posts shown on a category page, `CategoryPosts` (blog/views.py lines
99-114): the category is looked up by slug among published categories (404 =
`none` when absent), and its related posts pass through
`get_published_posts`. -/
def CategoryPosts.page_posts (db : DB) (now : Int) (slug : String) :
    Option (List AnnotatedPost) :=
  match db.categories.find? (fun c => c.is_published && c.slug == slug) with
  | none => none
  | some c =>
    some (get_published_posts db now
      (db.posts.filter (fun p => p.category == some c.id)))

/-- `PostDetail.get_object` (blog/views.py lines 83-85):
`get_object_or_404(self.get_users_posts(), id=post_id)`; `none` is the 404
outcome. -/
def PostDetail.get_object (db : DB) (now : Int) (viewer : Option Nat)
    (pid : Nat) : Option AnnotatedPost :=
  (get_users_posts db now viewer db.posts).find? (fun a => a.post.id == pid)

/-- The comment list of a post detail page, `PostDetail.get_context_data`
(blog/views.py lines 89-93): `Comment.objects.filter(post=post_id)` with the
model's default ordering `('pub_date',)`. -/
def PostDetail.comments (db : DB) (pid : Nat) : List Comment :=
  (db.comments.filter (fun c => c.post == pid)).insertionSort commentAsc

/-! ### Membership helpers for the composed querysets -/

theorem mem_annotate_sort (db : DB) (l : List Post) (a : AnnotatedPost) :
    a ∈ (l.map (annotate db)).insertionSort annDesc ↔
      a.post ∈ l ∧ a.comment_count = commentCount db a.post.id := by
  rw [List.Perm.mem_iff (List.perm_insertionSort annDesc _)]
  constructor
  · intro h
    rcases List.mem_map.mp h with ⟨p, hp, hEq⟩
    cases hEq
    exact ⟨hp, rfl⟩
  · rintro ⟨h1, h2⟩
    refine List.mem_map.mpr ⟨a.post, h1, ?_⟩
    cases a
    simp only [annotate]
    simp_all

theorem mem_get_published_posts (db : DB) (now : Int) (l : List Post)
    (a : AnnotatedPost) :
    a ∈ get_published_posts db now l ↔
      a.post ∈ l ∧ visible db now a.post = true ∧
        a.comment_count = commentCount db a.post.id := by
  unfold get_published_posts
  rw [mem_annotate_sort]
  simp [List.mem_filter, and_assoc]

theorem mem_get_users_posts (db : DB) (now : Int) (viewer : Option Nat)
    (l : List Post) (a : AnnotatedPost) :
    a ∈ get_users_posts db now viewer l ↔
      a.post ∈ l ∧
        (visible db now a.post || authorMatches a.post viewer) = true ∧
        a.comment_count = commentCount db a.post.id := by
  unfold get_users_posts
  rw [mem_annotate_sort]
  simp [List.mem_filter, and_assoc]

/-! ### Pagination

The views paginate through two distinct framework mechanisms.  `Index` is a
`ListView` with `paginate_by = 10`: `MultipleObjectMixin.paginate_queryset`
turns a missing page parameter into page 1, maps the literal string `"last"`
to the final page, and raises `Http404` for any other non-integer value and
for every integer outside `1..num_pages`.  `CategoryPosts` and `Profile`
instead call `Paginator.get_page`, which maps any non-integer value
(including `"last"`, by raising `PageNotAnInteger` on `int(...)`) to page 1
and clamps every out-of-range integer (too small or too large) to the last
page.  Both are modelled here exactly, since the views call them. -/

/-- The `page` request parameter: absent, the literal string `"last"`, some
other non-integer string, or an integer value. -/
inductive PageParam where
  | missing
  | lastStr
  | invalid
  | num (n : Int)
deriving Repr, DecidableEq

/-- `Paginator.num_pages`: `ceil(count / per_page)`, but at least 1 because
an empty first page is allowed (`allow_empty_first_page=True`). -/
def numPages (count per : Nat) : Nat :=
  max 1 ((count + per - 1) / per)

/-- The slice of the 1-based page `n`: elements `(n-1)*per` up to
`n*per` (exclusive) of the ordered collection. -/
def pageSlice {α : Type} (l : List α) (per n : Nat) : List α :=
  (l.drop ((n - 1) * per)).take per

/-- `Paginator.get_page` (used by `CategoryPosts.get_context_data` and
`Profile.get_context_data`): non-integers become page 1
(`PageNotAnInteger`), integers below 1 or above `num_pages` become the last
page (`EmptyPage`). -/
def get_page {α : Type} (l : List α) (per : Nat) (param : PageParam) :
    List α :=
  match param with
  | PageParam.missing => pageSlice l per 1
  | PageParam.lastStr => pageSlice l per 1
  | PageParam.invalid => pageSlice l per 1
  | PageParam.num n =>
    if n < 1 then pageSlice l per (numPages l.length per)
    else if (numPages l.length per : Int) < n then
      pageSlice l per (numPages l.length per)
    else pageSlice l per n.toNat

/-- `MultipleObjectMixin.paginate_queryset` (used by `Index` through
`ListView`): a missing parameter defaults to page 1, `"last"` becomes the
final page, any other non-integer raises `Http404` (`none`), and
`paginator.page` raises `Http404` for integers outside `1..num_pages`. -/
def listViewPaginate {α : Type} (l : List α) (per : Nat)
    (param : PageParam) : Option (List α) :=
  match param with
  | PageParam.missing => some (pageSlice l per 1)
  | PageParam.lastStr => some (pageSlice l per (numPages l.length per))
  | PageParam.invalid => none
  | PageParam.num n =>
    if 1 ≤ n ∧ n ≤ (numPages l.length per : Int) then
      some (pageSlice l per n.toNat)
    else none

/-- The page of the global feed served by `Index` (ListView pagination,
`paginate_by = 10`); `none` is the 404 outcome. -/
def Index.page (db : DB) (now : Int) (param : PageParam) :
    Option (List AnnotatedPost) :=
  listViewPaginate (Index.get_queryset db now) 10 param

/-- The `page_obj` of `Profile.get_context_data` (blog/views.py lines
194-195): `Paginator(posts, 10).get_page(request.GET.get('page'))`. -/
def Profile.page_obj (db : DB) (now : Int) (viewer : Option Nat)
    (owner : Nat) (param : PageParam) : List AnnotatedPost :=
  get_page (Profile.page_posts db now viewer owner) 10 param

/-- The `page_obj` of `CategoryPosts.get_context_data` (blog/views.py lines
109-114): `none` when the category 404s, otherwise
`Paginator(posts, paginate_by).get_page(request.GET.get('page'))`. -/
def CategoryPosts.page_obj (db : DB) (now : Int) (slug : String)
    (param : PageParam) : Option (List AnnotatedPost) :=
  match CategoryPosts.page_posts db now slug with
  | none => none
  | some posts => some (get_page posts 10 param)

/-! ### Request handling of the mutation endpoints

`Response` enumerates the outcomes the claims distinguish.  Mutating
handlers return the response together with the resulting database state.
The order of the checks inside each definition mirrors the method
resolution order of the corresponding view class: a `dispatch` defined on
the subclass itself (as in `EditPost` and `CreateComment`) runs before
`LoginRequiredMixin.dispatch`, which runs before
`UserPassesTestMixin.dispatch` (`OnlyAuthorMixin`). -/

inductive Response where
  | ok
  | redirectLogin
  | redirectDetail (post_id : Nat)
  | redirectProfile (user : Nat)
  | notFound
  | forbidden
deriving Repr, DecidableEq

/-- `CreatePost` (blog/views.py lines 117-122): `LoginRequiredMixin` alone
guards the view, so an anonymous requester is redirected to login before
anything else; the form handling itself is out of the claims' scope. -/
def CreatePost.dispatch (viewer : Option Nat) : Response :=
  match viewer with
  | none => Response.redirectLogin
  | some _ => Response.ok

/-- `EditProfile` (blog/views.py lines 199-211): guarded by
`LoginRequiredMixin` only; `get_object` returns `request.user`. -/
def EditProfile.dispatch (viewer : Option Nat) : Response :=
  match viewer with
  | none => Response.redirectLogin
  | some _ => Response.ok

/-- `EditPost.dispatch` (blog/views.py lines 129-133).  The subclass's own
`dispatch` runs first: it looks the post up by primary key (404 when
absent), and redirects to the post's detail page whenever
`post.author != request.user` — which holds for every anonymous requester,
since `AnonymousUser` equals no author.  Only when the requester IS the
author does `super().dispatch` reach `LoginRequiredMixin` (satisfied) and
`OnlyAuthorMixin` (satisfied), rendering the edit form. -/
def EditPost.dispatch (db : DB) (viewer : Option Nat) (pid : Nat) :
    Response :=
  match db.posts.find? (fun p => p.id == pid) with
  | none => Response.notFound
  | some post =>
    if viewer == some post.author then Response.ok
    else Response.redirectDetail post.id

/-- `DeletePost` (blog/views.py lines 136-146): `LoginRequiredMixin` first,
then `OnlyAuthorMixin.test_func` fetches the object (404 when absent) and
compares its author with `request.user` (`PermissionDenied`, i.e. 403, for
a non-author).  On success the row is deleted (comments cascade,
`on_delete=CASCADE`) and the response redirects to the requester's
profile. -/
def DeletePost.run (db : DB) (viewer : Option Nat) (pid : Nat) :
    Response × DB :=
  match viewer with
  | none => (Response.redirectLogin, db)
  | some u =>
    match db.posts.find? (fun p => p.id == pid) with
    | none => (Response.notFound, db)
    | some post =>
      if post.author == u then
        (Response.redirectProfile u,
         { db with
             posts := db.posts.filter (fun p => p.id != pid),
             comments := db.comments.filter (fun c => c.post != pid) })
      else (Response.forbidden, db)

/-- `CreateComment` (blog/views.py lines 149-164).  The subclass's
`dispatch` resolves `chosen_post` by primary key first (404 when absent),
and only then does `super().dispatch` reach `LoginRequiredMixin`.
`form_valid` stamps the requester as author and `chosen_post` as target —
no visibility check anywhere — and `get_success_url` redirects to the
post's detail page using the `post_id` URL argument. -/
def CreateComment.run (db : DB) (now : Int) (viewer : Option Nat)
    (pid : Nat) (text : String) : Response × DB :=
  match db.posts.find? (fun p => p.id == pid) with
  | none => (Response.notFound, db)
  | some chosen =>
    match viewer with
    | none => (Response.redirectLogin, db)
    | some u =>
      (Response.redirectDetail pid,
       { db with
           comments := db.comments ++
             [{ id := db.nextCommentId, text := text, author := u,
                pub_date := now, post := chosen.id }],
           nextCommentId := db.nextCommentId + 1 })

/-- `EditComment` (blog/views.py lines 167-171): `LoginRequiredMixin`, then
`OnlyAuthorMixin` on the comment resolved through `pk_url_kwarg =
'comment_id'` — the `post_id` URL segment is never read.  On success the
comment's text is updated and `UpdateView` redirects to
`Comment.get_absolute_url`, the detail page of the comment's actual
post. -/
def EditComment.run (db : DB) (viewer : Option Nat) (post_id cid : Nat)
    (text : String) : Response × DB :=
  match viewer with
  | none => (Response.redirectLogin, db)
  | some u =>
    match db.comments.find? (fun c => c.id == cid) with
    | none => (Response.notFound, db)
    | some c =>
      if c.author == u then
        (Response.redirectDetail c.post,
         { db with
             comments := db.comments.map
               (fun d => if d.id == cid then { d with text := text } else d) })
      else (Response.forbidden, db)

/-- `DeleteComment` (blog/views.py lines 174-181): same resolution as
`EditComment` (`pk_url_kwarg = 'comment_id'`, `post_id` unread); on success
the row is deleted and `get_success_url` redirects to the detail page of
`self.object.post_id`, the comment's actual post. -/
def DeleteComment.run (db : DB) (viewer : Option Nat) (post_id cid : Nat) :
    Response × DB :=
  match viewer with
  | none => (Response.redirectLogin, db)
  | some u =>
    match db.comments.find? (fun c => c.id == cid) with
    | none => (Response.notFound, db)
    | some c =>
      if c.author == u then
        (Response.redirectDetail c.post,
         { db with comments := db.comments.filter (fun d => d.id != cid) })
      else (Response.forbidden, db)

/-! ### Concrete example data, used by the witnesses and counterexamples -/

/-- A published category. -/
def cat1 : Category :=
  { id := 1, title := "tech", description := "d", slug := "tech",
    is_published := true }

/-- An unpublished category. -/
def cat2 : Category :=
  { id := 2, title := "old", description := "d", slug := "old",
    is_published := false }

/-- A publicly visible post of user 7 (published category, elapsed date). -/
def post1 : Post :=
  { id := 1, title := "a", text := "x", pub_date := 5, author := 7,
    location := none, category := some 1, is_published := true }

/-- A future-dated post of user 7. -/
def post2 : Post :=
  { id := 2, title := "b", text := "x", pub_date := 20, author := 7,
    location := none, category := some 1, is_published := true }

/-- A post of user 8 in the unpublished category. -/
def post3 : Post :=
  { id := 3, title := "c", text := "x", pub_date := 0, author := 8,
    location := none, category := some 2, is_published := true }

/-- A post of user 7 whose category FK is NULL. -/
def post4 : Post :=
  { id := 4, title := "d", text := "x", pub_date := 0, author := 7,
    location := none, category := none, is_published := true }

/-- A comment of user 8 on `post1`. -/
def com1 : Comment :=
  { id := 50, text := "hi", author := 8, pub_date := 6, post := 1 }

/-- The example database; the request-time witnesses use `now = 10`, when
only `post1` is publicly visible. -/
def dbMain : DB :=
  { categories := [cat1, cat2], posts := [post1, post2, post3, post4],
    comments := [com1], nextCommentId := 100 }

/-- `authorMatches p V` holds exactly when the viewer is the post's
author. -/
theorem authorMatches_iff (p : Post) (V : Option Nat) :
    authorMatches p V = true ↔ V = some p.author := by
  cases V with
  | none => simp [authorMatches]
  | some v =>
    simp only [authorMatches, beq_iff_eq, Option.some.injEq]
    exact eq_comm

/-- Claim C1: a post appears in the global feed (`Index`) iff it is in the
post table and the visibility predicate (`is_published`, published category,
`pub_date` elapsed) holds for it at request time, and every feed element
carries the `comment_count` annotation, the number of comment rows
referencing it. -/
theorem C1_global_feed (db : DB) (now : Int) (p : Post) :
    ((∃ a ∈ Index.get_queryset db now, a.post = p) ↔
      (p ∈ db.posts ∧ visible db now p = true))
    ∧ ∀ a ∈ Index.get_queryset db now,
        a.comment_count = commentCount db a.post.id := by
  have key : Index.get_queryset db now = get_published_posts db now db.posts :=
    rfl
  rw [key]
  constructor
  · constructor
    · rintro ⟨a, ha, rfl⟩
      have h := (mem_get_published_posts db now db.posts a).mp ha
      exact ⟨h.1, h.2.1⟩
    · rintro ⟨hp, hv⟩
      exact ⟨annotate db p,
        (mem_get_published_posts db now db.posts _).mpr ⟨hp, hv, rfl⟩, rfl⟩
  · intro a ha
    exact ((mem_get_published_posts db now db.posts a).mp ha).2.2

/-- Witness for C1 at the example database: `post1` is visible at time 10
and appears in the global feed. -/
theorem C1_witness :
    (post1 ∈ dbMain.posts ∧ visible dbMain 10 post1 = true)
    ∧ ∃ a ∈ Index.get_queryset dbMain 10, a.post = post1 := by
  have h := C1_global_feed dbMain 10 post1
  have hin : post1 ∈ dbMain.posts ∧ visible dbMain 10 post1 = true := by
    exact ⟨by decide, by decide⟩
  exact ⟨hin, h.1.mpr hin⟩

/-- Claim C2: a post authored by U always appears in U's own view of U's
profile feed (author-widened filter), while any other viewer — another user
or the anonymous one — sees it in U's profile iff the visibility predicate
holds. -/
theorem C2_profile_feed (db : DB) (now : Int) (U : Nat) (p : Post)
    (hp : p ∈ db.posts) (hauth : p.author = U) :
    (∃ a ∈ Profile.page_posts db now (some U) U, a.post = p)
    ∧ ∀ V : Option Nat, V ≠ some U →
        ((∃ a ∈ Profile.page_posts db now V U, a.post = p) ↔
          visible db now p = true) := by
  have hmem : ∀ (V : Option Nat) (a : AnnotatedPost),
      a ∈ Profile.page_posts db now V U ↔
        a ∈ get_users_posts db now V db.posts ∧ a.post.author == U := by
    intro V a
    unfold Profile.page_posts
    exact List.mem_filter
  constructor
  · refine ⟨annotate db p, ?_, rfl⟩
    rw [hmem]
    refine ⟨(mem_get_users_posts db now (some U) db.posts _).mpr
      ⟨hp, ?_, rfl⟩, ?_⟩
    · have hm : authorMatches p (some U) = true :=
        (authorMatches_iff p (some U)).mpr (by rw [hauth])
      show (visible db now p || authorMatches p (some U)) = true
      simp [hm]
    · simp [annotate, hauth]
  · intro V hV
    constructor
    · rintro ⟨a, ha, rfl⟩
      rw [hmem] at ha
      have h := (mem_get_users_posts db now V db.posts a).mp ha.1
      rcases Bool.or_eq_true_iff.mp h.2.1 with hv | hm
      · exact hv
      · exact absurd ((authorMatches_iff a.post V).mp hm)
          (fun e => hV (by rw [hauth] at e; exact e))
    · intro hv
      refine ⟨annotate db p, ?_, rfl⟩
      rw [hmem]
      refine ⟨(mem_get_users_posts db now V db.posts _).mpr
        ⟨hp, ?_, rfl⟩, by simp [annotate, hauth]⟩
      show (visible db now p || authorMatches p V) = true
      simp [hv]

/-- Witness for C2 at the example database: user 7's future-dated `post2`
is in 7's own profile feed at time 10, and is absent from user 8's view. -/
theorem C2_witness :
    (∃ a ∈ Profile.page_posts dbMain 10 (some 7) 7, a.post = post2)
    ∧ ¬ ∃ a ∈ Profile.page_posts dbMain 10 (some 8) 7, a.post = post2 := by
  have h := C2_profile_feed dbMain 10 7 post2 (by decide) rfl
  refine ⟨h.1, ?_⟩
  intro hex
  have := (h.2 (some 8) (by decide)).mp hex
  exact absurd this (by decide)

/-- Claim C3: the post detail page renders (`isSome`) iff a post with the
requested id exists and the viewer is its author or the visibility
predicate holds; every other case — including a wholly nonexistent id — is
the single not-found outcome `none`.  The result type `Option` has no
distinct forbidden outcome: a hidden post and a missing post are
indistinguishable to a non-author. -/
theorem C3_detail_page (db : DB) (now : Int) (viewer : Option Nat)
    (pid : Nat) :
    (PostDetail.get_object db now viewer pid).isSome ↔
      ∃ p, p ∈ db.posts ∧ p.id = pid ∧
        (visible db now p || authorMatches p viewer) = true := by
  unfold PostDetail.get_object
  rw [List.find?_isSome]
  constructor
  · rintro ⟨a, ha, hpred⟩
    have h := (mem_get_users_posts db now viewer db.posts a).mp ha
    exact ⟨a.post, h.1, by simpa using hpred, h.2.1⟩
  · rintro ⟨p, hp, hid, hvis⟩
    refine ⟨annotate db p,
      (mem_get_users_posts db now viewer db.posts _).mpr ⟨hp, hvis, rfl⟩, ?_⟩
    simp [annotate, hid]

/-- Witness for C3 at the example database: the anonymous viewer can open
`post1`'s detail page, and gets not-found both for user 8's hidden `post3`
and for the nonexistent id 99. -/
theorem C3_witness :
    (PostDetail.get_object dbMain 10 none 1).isSome = true
    ∧ PostDetail.get_object dbMain 10 none 3 = none
    ∧ PostDetail.get_object dbMain 10 none 99 = none := by
  refine ⟨?_, by decide, by decide⟩
  have h := (C3_detail_page dbMain 10 none 1).mpr
    ⟨post1, by decide, rfl, by decide⟩
  simpa using h

/-- Counterexample to claim C4: the global feed does NOT clamp out-of-range
page numbers.  At time 10 the example feed holds exactly one post, so page 2
is out of range; `Index` (a ListView) answers 404 (`none`), while the
clamping behavior the claim describes — `Paginator.get_page`, as used by the
category and profile feeds — would have returned the last page, which is
nonempty. -/
theorem C4_counterexample :
    Index.page dbMain 10 (PageParam.num 2) = none
    ∧ get_page (Index.get_queryset dbMain 10) 10 (PageParam.num 2) =
        pageSlice (Index.get_queryset dbMain 10) 10 1
    ∧ pageSlice (Index.get_queryset dbMain 10) 10 1 ≠ [] := by
  refine ⟨by decide, by decide, by decide⟩

/-- Claim C4 as amended: the category and profile feeds paginate through
`Paginator.get_page`, which sends a missing or invalid page parameter to
page 1 and clamps every out-of-range integer to the last valid page; the
global feed paginates through ListView's `paginate_queryset`, which sends a
missing parameter to page 1 and the literal `"last"` to the final page but
answers not-found (`none`) for any other non-integer and for every
out-of-range integer.  An in-range page N yields the slice of items
`(N-1)*10` up to `N*10` (exclusive) in both mechanisms. -/
theorem C4_pagination (l : List AnnotatedPost) (n : Int) (db : DB)
    (now : Int) (viewer : Option Nat) (owner : Nat) (slug : String)
    (param : PageParam) :
    get_page l 10 PageParam.missing = pageSlice l 10 1
    ∧ get_page l 10 PageParam.invalid = pageSlice l 10 1
    ∧ get_page l 10 (PageParam.num n) =
        pageSlice l 10
          (if 1 ≤ n ∧ n ≤ (numPages l.length 10 : Int) then n.toNat
           else numPages l.length 10)
    ∧ listViewPaginate l 10 PageParam.missing = some (pageSlice l 10 1)
    ∧ listViewPaginate l 10 PageParam.lastStr =
        some (pageSlice l 10 (numPages l.length 10))
    ∧ listViewPaginate l 10 PageParam.invalid = none
    ∧ listViewPaginate l 10 (PageParam.num n) =
        (if 1 ≤ n ∧ n ≤ (numPages l.length 10 : Int) then
          some (pageSlice l 10 n.toNat)
         else none)
    ∧ Profile.page_obj db now viewer owner param =
        get_page (Profile.page_posts db now viewer owner) 10 param
    ∧ Index.page db now param =
        listViewPaginate (Index.get_queryset db now) 10 param
    ∧ CategoryPosts.page_obj db now slug param =
        Option.map (fun posts => get_page posts 10 param)
          (CategoryPosts.page_posts db now slug) := by
  refine ⟨rfl, rfl, ?_, rfl, rfl, rfl, rfl, rfl, rfl, ?_⟩
  · simp only [get_page]
    split_ifs <;> first | rfl | (exfalso; omega)
  · unfold CategoryPosts.page_obj
    cases CategoryPosts.page_posts db now slug <;> rfl

/-- Counterexample to claim C5: an unauthenticated request to edit an
existing post is redirected to the post's detail page, not to the login
flow, because `EditPost.dispatch` performs its author comparison before
`LoginRequiredMixin` runs. -/
theorem C5_counterexample :
    EditPost.dispatch dbMain none 1 = Response.redirectDetail 1
    ∧ Response.redirectDetail 1 ≠ Response.redirectLogin := by
  refine ⟨by decide, by decide⟩

/-- Claim C5 as amended: the create-post, delete-post, edit-comment,
delete-comment and edit-profile endpoints redirect every unauthenticated
request to the login flow before any author-based check or other handling.
The two views that override `dispatch` behave differently: create-comment
resolves the target post first (404 when it does not exist) and only then
redirects the unauthenticated requester to login, and edit-post resolves the
post first (404 when it does not exist) and then redirects the
unauthenticated requester to the post's detail page — never to login.  No
unauthenticated request mutates the stored state. -/
theorem C5_login_redirects (db : DB) (now : Int) (pid cid post_id : Nat)
    (text : String) :
    CreatePost.dispatch none = Response.redirectLogin
    ∧ DeletePost.run db none pid = (Response.redirectLogin, db)
    ∧ EditComment.run db none post_id cid text = (Response.redirectLogin, db)
    ∧ DeleteComment.run db none post_id cid = (Response.redirectLogin, db)
    ∧ EditProfile.dispatch none = Response.redirectLogin
    ∧ CreateComment.run db now none pid text =
        (match db.posts.find? (fun p => p.id == pid) with
         | some _ => (Response.redirectLogin, db)
         | none => (Response.notFound, db))
    ∧ EditPost.dispatch db none pid =
        (match db.posts.find? (fun p => p.id == pid) with
         | none => Response.notFound
         | some post => Response.redirectDetail post.id) := by
  refine ⟨rfl, rfl, rfl, rfl, rfl, ?_, ?_⟩
  · unfold CreateComment.run
    cases db.posts.find? (fun p => p.id == pid) <;> rfl
  · unfold EditPost.dispatch
    cases db.posts.find? (fun p => p.id == pid) <;> rfl

/-- Claim C6: an authenticated non-author's attempt to delete a post, or to
edit or delete a comment, is answered with the forbidden response and
leaves the stored state unchanged — in particular the post is still
present afterwards. -/
theorem C6_nonauthor_forbidden (db : DB) (u pid cid post_id : Nat)
    (text : String) :
    (∀ post, db.posts.find? (fun p => p.id == pid) = some post →
      post.author ≠ u →
      DeletePost.run db (some u) pid = (Response.forbidden, db)
      ∧ post ∈ db.posts)
    ∧ (∀ c, db.comments.find? (fun d => d.id == cid) = some c →
        c.author ≠ u →
        EditComment.run db (some u) post_id cid text =
          (Response.forbidden, db)
        ∧ DeleteComment.run db (some u) post_id cid =
            (Response.forbidden, db)) := by
  constructor
  · intro post hp hpa
    refine ⟨?_, List.mem_of_find?_eq_some hp⟩
    unfold DeletePost.run
    rw [hp]
    simp [hpa]
  · intro c hc hca
    constructor
    · unfold EditComment.run
      rw [hc]
      simp [hca]
    · unfold DeleteComment.run
      rw [hc]
      simp [hca]

/-- Witness for C6 at the example database: user 9 owns neither `post1` nor
`com1`, and each non-author mutation is forbidden with the state intact. -/
theorem C6_witness :
    DeletePost.run dbMain (some 9) 1 = (Response.forbidden, dbMain)
    ∧ EditComment.run dbMain (some 9) 1 50 "zz" = (Response.forbidden, dbMain)
    ∧ DeleteComment.run dbMain (some 9) 1 50 = (Response.forbidden, dbMain) := by
  have h := C6_nonauthor_forbidden dbMain 9 1 50 1 "zz"
  have hpost := h.1 post1 (by decide) (by decide)
  have hcom := h.2 com1 (by decide) (by decide)
  exact ⟨hpost.1, hcom.1, hcom.2⟩

/-- Claim C7: for an authenticated user, a comment-creation request on post
id `pid` looks the post up by primary key; when it exists, a comment
authored by the requester and referencing that post is appended and the
response redirects to the post's detail page — without any visibility
check, so this happens even when the post is invisible to the requester —
and when no such post exists the response is 404 and the state is
unchanged. -/
theorem C7_create_comment (db : DB) (now : Int) (u pid : Nat)
    (text : String) :
    (∀ chosen, db.posts.find? (fun p => p.id == pid) = some chosen →
      CreateComment.run db now (some u) pid text =
        (Response.redirectDetail pid,
         { db with
             comments := db.comments ++
               [{ id := db.nextCommentId, text := text, author := u,
                  pub_date := now, post := pid }],
             nextCommentId := db.nextCommentId + 1 }))
    ∧ (∀ chosen, db.posts.find? (fun p => p.id == pid) = some chosen →
        visible db now chosen = false → chosen.author ≠ u →
        ((CreateComment.run db now (some u) pid text).2).comments.length =
          db.comments.length + 1)
    ∧ (db.posts.find? (fun p => p.id == pid) = none →
        CreateComment.run db now (some u) pid text =
          (Response.notFound, db)) := by
  have hmain : ∀ chosen, db.posts.find? (fun p => p.id == pid) = some chosen →
      CreateComment.run db now (some u) pid text =
        (Response.redirectDetail pid,
         { db with
             comments := db.comments ++
               [{ id := db.nextCommentId, text := text, author := u,
                  pub_date := now, post := pid }],
             nextCommentId := db.nextCommentId + 1 }) := by
    intro chosen hfind
    have hid : chosen.id = pid := by
      have := List.find?_some hfind
      simpa using this
    simp only [CreateComment.run, hfind, hid]
  refine ⟨hmain, ?_, ?_⟩
  · intro chosen hfind _ _
    rw [hmain chosen hfind]
    simp
  · intro hfind
    unfold CreateComment.run
    rw [hfind]

/-- Witness for C7 at the example database: user 9 comments on `post3`,
which is invisible to everyone but its author at time 10; the comment is
nevertheless created, and commenting on missing id 99 gives 404. -/
theorem C7_witness :
    CreateComment.run dbMain 11 (some 9) 3 "w" =
      (Response.redirectDetail 3,
       { dbMain with
           comments := dbMain.comments ++
             [{ id := 100, text := "w", author := 9, pub_date := 11,
                post := 3 }],
           nextCommentId := 101 })
    ∧ visible dbMain 11 post3 = false
    ∧ CreateComment.run dbMain 11 (some 9) 99 "w" =
        (Response.notFound, dbMain) := by
  have h := C7_create_comment dbMain 11 9 3 "w"
  have h99 := C7_create_comment dbMain 11 9 99 "w"
  exact ⟨h.1 post3 (by decide), by decide, h99.2.2 (by decide)⟩

/-- Claim C8: consecutive items of every feed — the global feed, any
category feed (`get_published_posts` over any base collection) and any
profile feed — have non-increasing `pub_date`, and consecutive comments
under a post's detail page have non-decreasing creation timestamps.
`annDesc a b` is `b.post.pub_date ≤ a.post.pub_date` and `commentAsc a b`
is `a.pub_date ≤ b.pub_date`. -/
theorem C8_ordering (db : DB) (now : Int) (viewer : Option Nat)
    (owner pid : Nat) (posts : List Post) :
    List.Chain' annDesc (get_published_posts db now posts)
    ∧ List.Chain' annDesc (Index.get_queryset db now)
    ∧ List.Chain' annDesc (Profile.page_posts db now viewer owner)
    ∧ List.Chain' commentAsc (PostDetail.comments db pid) := by
  have hpub : ∀ l : List Post,
      List.Chain' annDesc (get_published_posts db now l) := by
    intro l
    exact List.Pairwise.chain'
      (List.sorted_insertionSort annDesc ((l.filter
        (fun p => visible db now p)).map (annotate db)))
  refine ⟨hpub posts, hpub db.posts, ?_, ?_⟩
  · have hs : List.Pairwise annDesc (get_users_posts db now viewer db.posts) :=
      List.sorted_insertionSort annDesc _
    exact List.Pairwise.chain' (hs.sublist (List.filter_sublist _))
  · exact List.Pairwise.chain'
      (List.sorted_insertionSort commentAsc
        (db.comments.filter (fun c => c.post == pid)))

/-- Claim C9: a post whose category FK is NULL is never publicly visible —
the visibility predicate is false for it regardless of `is_published` and
`pub_date`, it is absent from the global feed and from every profile feed
viewed by anyone but its author, and its detail page is not-found for every
non-author viewer — while the author still reaches it through the
author-widened filter.  Post ids are assumed pairwise distinct (primary
keys). -/
theorem C9_null_category (db : DB) (now : Int) (p : Post)
    (hp : p ∈ db.posts) (hcat : p.category = none)
    (huniq : db.posts.Pairwise (fun a b => a.id ≠ b.id)) :
    visible db now p = false
    ∧ (∀ a ∈ Index.get_queryset db now, a.post ≠ p)
    ∧ (∀ (V : Option Nat) (owner : Nat), V ≠ some p.author →
        ∀ a ∈ Profile.page_posts db now V owner, a.post ≠ p)
    ∧ (∀ V : Option Nat, V ≠ some p.author →
        PostDetail.get_object db now V p.id = none)
    ∧ (PostDetail.get_object db now (some p.author) p.id).isSome := by
  have hvis : visible db now p = false := by
    unfold visible
    rw [hcat]
    simp
  have hsymm : Symmetric (fun (a b : Post) => a.id ≠ b.id) :=
    fun x y hxy e => hxy e.symm
  refine ⟨hvis, ?_, ?_, ?_, ?_⟩
  · intro a ha hap
    have h := (mem_get_published_posts db now db.posts a).mp ha
    rw [hap, hvis] at h
    exact absurd h.2.1 (by simp)
  · intro V owner hV a ha hap
    have h1 := (List.mem_filter.mp ha).1
    have h := (mem_get_users_posts db now V db.posts a).mp h1
    rw [hap] at h
    rcases Bool.or_eq_true_iff.mp h.2.1 with hv | hm
    · rw [hvis] at hv
      cases hv
    · exact hV ((authorMatches_iff p V).mp hm)
  · intro V hV
    unfold PostDetail.get_object
    rw [List.find?_eq_none]
    intro a ha hpred
    have h := (mem_get_users_posts db now V db.posts a).mp ha
    have hid : a.post.id = p.id := by simpa using hpred
    have heq : a.post = p := by
      by_cases hp2 : a.post = p
      · exact hp2
      · exact absurd hid (huniq.forall hsymm h.1 hp hp2)
    rw [heq] at h
    rcases Bool.or_eq_true_iff.mp h.2.1 with hv | hm
    · rw [hvis] at hv
      cases hv
    · exact absurd ((authorMatches_iff p V).mp hm) hV
  · unfold PostDetail.get_object
    rw [List.find?_isSome]
    refine ⟨annotate db p,
      (mem_get_users_posts db now (some p.author) db.posts _).mpr
        ⟨hp, ?_, rfl⟩, by simp [annotate]⟩
    show (visible db now p || authorMatches p (some p.author)) = true
    simp [(authorMatches_iff p (some p.author)).mpr rfl]

/-- Witness for C9 at the example database: `post4` has a NULL category FK,
is published with an elapsed date, yet is invisible; user 8 gets not-found
on its detail page while its author (user 7) reaches it. -/
theorem C9_witness :
    visible dbMain 10 post4 = false
    ∧ PostDetail.get_object dbMain 10 (some 8) post4.id = none
    ∧ (PostDetail.get_object dbMain 10 (some 7) post4.id).isSome = true := by
  have h := C9_null_category dbMain 10 post4 (by decide) rfl (by decide)
  exact ⟨h.1, h.2.2.2.1 (some 8) (by decide), h.2.2.2.2⟩

/-- Claim C10: the comment edit and delete endpoints resolve their target
solely by the `comment_id` URL segment — two requests differing only in the
`post_id` segment perform the identical mutation on the identical comment —
and the delete success redirect targets the comment's actual post, not the
`post_id` taken from the URL. -/
theorem C10_comment_endpoints (db : DB) (viewer : Option Nat)
    (pid1 pid2 cid : Nat) (text : String) :
    EditComment.run db viewer pid1 cid text =
      EditComment.run db viewer pid2 cid text
    ∧ DeleteComment.run db viewer pid1 cid =
        DeleteComment.run db viewer pid2 cid
    ∧ (∀ u t db2,
        DeleteComment.run db (some u) pid1 cid =
          (Response.redirectDetail t, db2) →
        ∃ c, c ∈ db.comments ∧ c.id = cid ∧ c.post = t) := by
  refine ⟨rfl, rfl, ?_⟩
  intro u t db2 h
  cases hfind : db.comments.find? (fun c => c.id == cid) with
  | none =>
    simp only [DeleteComment.run, hfind] at h
    exact absurd h (by simp)
  | some c =>
    by_cases hau : (c.author == u) = true
    · simp only [DeleteComment.run, hfind, hau, if_true] at h
      refine ⟨c, List.mem_of_find?_eq_some hfind,
        by simpa using List.find?_some hfind, ?_⟩
      have hfst := congrArg Prod.fst h
      simpa using hfst
    · simp only [DeleteComment.run, hfind] at h
      rw [if_neg hau] at h
      exact absurd h (by simp)

/-- Witness for C10 at the example database: deleting comment 50 through an
unrelated `post_id` 999 equals deleting it through its real post's id, and
the redirect target 1 is the post of comment 50. -/
theorem C10_witness :
    DeleteComment.run dbMain (some 8) 999 50 =
      DeleteComment.run dbMain (some 8) 1 50
    ∧ ∃ c, c ∈ dbMain.comments ∧ c.id = 50 ∧ c.post = 1 := by
  have h := C10_comment_endpoints dbMain (some 8) 999 1 50 "t"
  exact ⟨h.2.1, h.2.2 8 1 { dbMain with comments := [] } (by decide)⟩
